import Mathlib

/-!
Shallow embedding of the rule-based insight / next-best-action engine, the
pipeline-analytics aggregator, the pagination logic, the service-shell
control flow, and the rolling performance buffer of the CRM repository
(`src/lib/services/intent.service.ts`, `src/lib/services/relationship.service.ts`,
`src/lib/database/client.ts`, `src/lib/observability/telemetry.ts`).

Modelling conventions:
- JavaScript numbers are modelled as `ℚ` (all constants in the source are
  exact decimals); timestamps (`Date.now()`, parsed date strings) are epoch
  milliseconds modelled as `ℤ` and passed in explicitly as `now`.
- Non-deterministic fields that no claim mentions (`uuidv4()` ids, ISO
  timestamp strings, free-form `metadata`, long description/reasoning texts)
  are omitted from the embedded records; every field a rule reads or a claim
  mentions is kept.
- `Array.prototype.sort(cmp)` (a stable sort by a total preorder comparator)
  is modelled by `List.insertionSort` over the preorder the comparator encodes.
-/

namespace CRM

/-- Intent pipeline stage (`IntentStageSchema` in `validation/intent-schemas.ts`). -/
inductive Stage
  | discovery
  | qualification
  | proposal
  | negotiation
  | closedWon
  | closedLost
  deriving DecidableEq, Repr

/-- Next-best-action type (`NextBestActionSchema.type`). -/
inductive ActionType
  | call
  | email
  | meeting
  | followUp
  | proposal
  | demo
  deriving DecidableEq, Repr

/-- Estimated impact / effort level (`low | medium | high`). -/
inductive Impact
  | low
  | medium
  | high
  deriving DecidableEq, Repr

/-- AI insight category (`AIInsightSchema.type`). -/
inductive InsightType
  | behavioral
  | predictive
  | contextual
  | competitive
  deriving DecidableEq, Repr

/-- The fields of an intent row that the rule engine reads
(`generateAIInsights` / `generateNextBestActions` / `calculateDaysInStage`
read only `probability`, `stage`, `value`, `expected_close_date`,
`updated_at`).  `expected_close_date` and `updated_at` are epoch
milliseconds; `expected_close_date = none` models a null column. -/
structure Intent where
  value : ℚ
  probability : ℚ
  stage : Stage
  expected_close_date : Option ℤ
  updated_at : ℤ
  deriving DecidableEq, Repr

/-- An emitted AI insight.  `days_to_close` / `days_in_stage` model the
corresponding `metadata` payload of the rule that computes them. -/
structure AIInsight where
  type : InsightType
  title : String
  confidence : ℚ
  impact : Impact
  days_to_close : Option ℤ := none
  days_in_stage : Option ℤ := none
  deriving DecidableEq, Repr

/-- An emitted next-best-action record (deterministic fields). -/
structure Action where
  type : ActionType
  title : String
  priority : ℕ
  confidence : ℚ
  estimated_impact : Impact
  estimated_effort : Impact
  due_date : Option ℤ := none
  deriving DecidableEq, Repr

/-- One day in milliseconds (the source divides by `1000 * 60 * 60 * 24`). -/
def msPerDay : ℤ := 1000 * 60 * 60 * 24

/-- `calculateDaysInStage`: `Math.ceil((now - updated_at) / 86400000)`. -/
def calculateDaysInStage (now updatedAt : ℤ) : ℤ :=
  ⌈((now - updatedAt : ℤ) : ℚ) / (msPerDay : ℚ)⌉

/-- The behavioral insight pushed by rule 1 of `generateAIInsights`. -/
def highConversionInsight : AIInsight :=
  { type := InsightType.behavioral
    title := "High Conversion Probability Detected"
    confidence := 0.92
    impact := Impact.high }

/-- The predictive insight pushed by rule 2 of `generateAIInsights`,
carrying the computed days-to-close in its `metadata`. -/
def highValueClosingSoonInsight (daysToClose : ℤ) : AIInsight :=
  { type := InsightType.predictive
    title := "High-Value Deal Closing Soon"
    confidence := 0.85
    impact := Impact.high
    days_to_close := some daysToClose }

/-- The contextual insight pushed by rule 3 of `generateAIInsights`. -/
def extendedStageDurationInsight (daysInStage : ℤ) : AIInsight :=
  { type := InsightType.contextual
    title := "Extended Stage Duration"
    confidence := 0.78
    impact := Impact.medium
    days_in_stage := some daysInStage }

/-- Rule 1 of `generateAIInsights`: behavioral insight when
`probability > 0.8 && stage === 'qualification'`. -/
def insightRule1 (i : Intent) : List AIInsight :=
  if i.probability > 0.8 ∧ i.stage = Stage.qualification then
    [highConversionInsight]
  else []

/-- Rule 2 of `generateAIInsights`: predictive insight when
`value > 50000 && expected_close_date` and
`daysToClose = Math.ceil((close - now) / 86400000)` is `< 30`.
`expected_close_date = none` (a null column) skips the rule, as the
falsy `&&` guard does; there is no lower bound on `daysToClose`. -/
def insightRule2 (now : ℤ) (i : Intent) : List AIInsight :=
  match i.expected_close_date with
  | some closeDate =>
    if i.value > 50000 then
      let daysToClose : ℤ := ⌈((closeDate - now : ℤ) : ℚ) / (msPerDay : ℚ)⌉
      if daysToClose < 30 then [highValueClosingSoonInsight daysToClose]
      else []
    else []
  | none => []

/-- Rule 3 of `generateAIInsights`: contextual insight when
`daysInStage > 30 && stage !== 'discovery'`. -/
def insightRule3 (now : ℤ) (i : Intent) : List AIInsight :=
  let daysInStage := calculateDaysInStage now i.updated_at
  if daysInStage > 30 ∧ i.stage ≠ Stage.discovery then
    [extendedStageDurationInsight daysInStage]
  else []

/-- `generateAIInsights` (`intent.service.ts`): the three rules evaluate
independently and push in source order. -/
def generateAIInsights (now : ℤ) (i : Intent) : List AIInsight :=
  insightRule1 i ++ insightRule2 now i ++ insightRule3 now i

/-- The "Discovery Call" action pushed in the `discovery` branch. -/
def discoveryCall : Action :=
  { type := ActionType.call
    title := "Discovery Call"
    priority := 2
    confidence := 0.85
    estimated_impact := Impact.high
    estimated_effort := Impact.medium }

/-- The "Send Proposal" action pushed in the `qualification` branch
(due date = `now + 3 * 24 * 60 * 60 * 1000`). -/
def sendProposal (now : ℤ) : Action :=
  { type := ActionType.proposal
    title := "Send Proposal"
    priority := 1
    confidence := 0.91
    estimated_impact := Impact.high
    estimated_effort := Impact.high
    due_date := some (now + 3 * msPerDay) }

/-- The "Proposal Follow-up" action pushed in the `proposal` branch. -/
def proposalFollowUp : Action :=
  { type := ActionType.followUp
    title := "Proposal Follow-up"
    priority := 1
    confidence := 0.88
    estimated_impact := Impact.medium
    estimated_effort := Impact.low }

/-- The "Negotiation Meeting" action pushed in the `negotiation` branch. -/
def negotiationMeeting : Action :=
  { type := ActionType.meeting
    title := "Negotiation Meeting"
    priority := 1
    confidence := 0.82
    estimated_impact := Impact.high
    estimated_effort := Impact.medium }

/-- The "Executive Meeting" action appended by the value-based rule. -/
def executiveMeeting : Action :=
  { type := ActionType.meeting
    title := "Executive Meeting"
    priority := 1
    confidence := 0.79
    estimated_impact := Impact.high
    estimated_effort := Impact.high }

/-- The stage-keyed `switch` block of `generateNextBestActions`: at most one
action per branch, `closed-won` / `closed-lost` fall through with none. -/
def stageActions (now : ℤ) (i : Intent) : List Action :=
  match i.stage with
  | Stage.discovery =>
    if i.probability < 0.3 then [discoveryCall] else []
  | Stage.qualification =>
    if i.probability > 0.7 then [sendProposal now] else []
  | Stage.proposal =>
    let daysInStage := calculateDaysInStage now i.updated_at
    if daysInStage > 14 then [proposalFollowUp] else []
  | Stage.negotiation => [negotiationMeeting]
  | Stage.closedWon => []
  | Stage.closedLost => []

/-- `actions.some(a => a.type === 'meeting')`. -/
def hasMeeting (actions : List Action) : Bool :=
  actions.any fun a => a.type == ActionType.meeting

/-- The ordering encoded by the comparator
`(a, b) => a.priority !== b.priority ? a.priority - b.priority : b.confidence - a.confidence`:
`a` sorts no later than `b` iff the comparator is ≤ 0 on `(a, b)`. -/
def actionLE (a b : Action) : Prop :=
  a.priority < b.priority ∨ (a.priority = b.priority ∧ b.confidence ≤ a.confidence)

instance (a b : Action) : Decidable (actionLE a b) :=
  decidable_of_iff
    (a.priority < b.priority ∨ (a.priority = b.priority ∧ b.confidence ≤ a.confidence))
    Iff.rfl

instance : IsTotal Action actionLE where
  total a b := by
    unfold actionLE
    rcases Nat.lt_trichotomy a.priority b.priority with h | h | h
    · exact Or.inl (Or.inl h)
    · rcases le_total a.confidence b.confidence with hc | hc
      · exact Or.inr (Or.inr ⟨h.symm, hc⟩)
      · exact Or.inl (Or.inr ⟨h, hc⟩)
    · exact Or.inr (Or.inl h)

instance : IsTrans Action actionLE where
  trans a b c hab hbc := by
    unfold actionLE at *
    rcases hab with h₁ | ⟨e₁, c₁⟩
    · rcases hbc with h₂ | ⟨e₂, _⟩
      · exact Or.inl (h₁.trans h₂)
      · exact Or.inl (e₂ ▸ h₁)
    · rcases hbc with h₂ | ⟨e₂, c₂⟩
      · exact Or.inl (e₁ ▸ h₂)
      · exact Or.inr ⟨e₁.trans e₂, c₂.trans c₁⟩

/-- The value-based block of `generateNextBestActions`: append the
executive-meeting action when `value > 100000` and the meeting-type
de-duplication check `!actions.some(a => a.type === 'meeting')` passes. -/
def execAppended (now : ℤ) (i : Intent) : List Action :=
  if i.value > 100000 ∧ hasMeeting (stageActions now i) = false then
    stageActions now i ++ [executiveMeeting]
  else stageActions now i

/-- `generateNextBestActions` (`intent.service.ts`): stage-keyed actions,
then the value-based executive-meeting rule, then the comparator sort. -/
def generateNextBestActions (now : ℤ) (i : Intent) : List Action :=
  List.insertionSort actionLE (execAppended now i)

/-! ### Cursor pagination (`listIntents` / `listRelationships`) -/

/-- The pagination block of a paginated response: the returned page,
the `has_more` flag and the next cursor (a row id, or `null`). -/
structure PageResult (α : Type) where
  items : List α
  has_more : Bool
  cursor : Option String
  deriving Repr

/-- The pagination epilogue both list operations run on the rows the
query returned: `hasMore = data.length > limit`,
`items = data.slice(0, limit)`,
`nextCursor = hasMore ? items[items.length - 1]?.id : null`. -/
def paginateFetched {α : Type} (idOf : α → String) (limit : ℕ)
    (data : List α) : PageResult α :=
  let hasMore := decide (limit < data.length)
  let items := data.take limit
  { items := items
    has_more := hasMore
    cursor := if hasMore then items.getLast?.map idOf else none }

/-- A list operation end to end, from the rows matching the filters,
in query order: the query itself carries `.limit(limit + 1)`, so the
fetch yields `matching.take (limit + 1)`, on which the pagination
epilogue runs. -/
def listQuery {α : Type} (idOf : α → String) (limit : ℕ)
    (matching : List α) : PageResult α :=
  paginateFetched idOf limit (matching.take (limit + 1))

/-- An `intents` row: the columns the rule engine reads plus the primary
key used as pagination cursor (remaining columns are response plumbing no
claim touches). -/
structure IntentRow extends Intent where
  id : String

/-- A `relationships` row: the primary key used as pagination cursor (the
remaining columns are response plumbing no claim touches). -/
structure RelationshipRow where
  id : String
  propensity_score : ℚ

/-- The pagination of `listIntents` over the rows matching its filters. -/
def listIntentsPage (limit : ℕ) (matching : List IntentRow) : PageResult IntentRow :=
  listQuery IntentRow.id limit matching

/-- The pagination of `listRelationships` over the rows matching its filters. -/
def listRelationshipsPage (limit : ℕ) (matching : List RelationshipRow) :
    PageResult RelationshipRow :=
  listQuery RelationshipRow.id limit matching

/-! ### Pipeline analytics (`getPipelineAnalytics` and helpers) -/

/-- A row of the analytics stage query
(`select stage, value, probability, created_at, updated_at` over
`stage ≠ 'closed-lost'`).  `expected_close_date` is carried as an optional
column because `generateForecasting` reads it; the analytics query does not
select it, so on that path it is always `none` (JavaScript `undefined`). -/
structure StageRow where
  stage : Stage
  value : ℚ
  probability : ℚ
  created_at : ℤ
  updated_at : ℤ
  expected_close_date : Option ℤ := none
  deriving DecidableEq, Repr

/-- One entry of the `stage_metrics` array. -/
structure StageMetrics where
  stage : Stage
  count : ℕ
  total_value : ℚ
  avg_value : ℚ
  avg_probability : ℚ
  avg_days_in_stage : ℚ
  deriving DecidableEq, Repr

/-- `calculateStageMetrics`: per-stage count, totals and `count > 0 ? x / count : 0`
guarded averages over the five open/won stages. -/
def calculateStageMetrics (now : ℤ) (intents : List StageRow) : List StageMetrics :=
  [Stage.discovery, Stage.qualification, Stage.proposal,
   Stage.negotiation, Stage.closedWon].map fun stage =>
    let stageIntents := intents.filter fun i => i.stage == stage
    let count := stageIntents.length
    let totalValue := stageIntents.foldl (fun sum i => sum + i.value) 0
    { stage := stage
      count := count
      total_value := totalValue
      avg_value := if 0 < count then totalValue / count else 0
      avg_probability :=
        if 0 < count then
          (stageIntents.foldl (fun sum i => sum + i.probability) 0) / count
        else 0
      avg_days_in_stage :=
        if 0 < count then
          (stageIntents.foldl
            (fun sum i => sum + ((calculateDaysInStage now i.updated_at : ℤ) : ℚ)) 0) / count
        else 0 }

/-- `calculateVelocityMetrics`: hardcoded placeholder figures. -/
structure VelocityMetrics where
  avg_days_to_close : ℚ
  avg_days_discovery_to_qualification : ℚ
  avg_days_qualification_to_proposal : ℚ
  avg_days_proposal_to_negotiation : ℚ
  avg_days_negotiation_to_close : ℚ
  deriving DecidableEq, Repr

/-- The constants `calculateVelocityMetrics` returns. -/
def calculateVelocityMetrics : VelocityMetrics :=
  { avg_days_to_close := 45
    avg_days_discovery_to_qualification := 7
    avg_days_qualification_to_proposal := 14
    avg_days_proposal_to_negotiation := 10
    avg_days_negotiation_to_close := 14 }

/-- The `forecasting` block of the analytics response. -/
structure Forecast where
  next_30_days : ℚ
  next_60_days : ℚ
  next_90_days : ℚ
  confidence : ℚ
  deriving DecidableEq, Repr

/-- One horizon figure of `generateForecasting`: the source repeats this
expression verbatim for the 30/60/90-day cutoffs —
`intents.filter(i => i.expected_close_date && new Date(i.expected_close_date) <= cutoff)
        .reduce((sum, i) => sum + i.value * i.probability, 0)`. -/
def forecastSum (cutoff : ℤ) (intents : List StageRow) : ℚ :=
  (intents.filter fun i => i.expected_close_date.any fun d => decide (d ≤ cutoff)).foldl
    (fun sum i => sum + i.value * i.probability) 0

/-- `generateForecasting`: three horizon sums with cutoffs
`now + h * 24 * 60 * 60 * 1000` and the fixed confidence constant. -/
def generateForecasting (now : ℤ) (intents : List StageRow) : Forecast :=
  { next_30_days := forecastSum (now + 30 * msPerDay) intents
    next_60_days := forecastSum (now + 60 * msPerDay) intents
    next_90_days := forecastSum (now + 90 * msPerDay) intents
    confidence := 0.82 }

/-- The full analytics record. -/
structure PipelineAnalytics where
  total_intents : ℕ
  total_pipeline_value : ℚ
  weighted_pipeline_value : ℚ
  avg_deal_size : ℚ
  overall_conversion_rate : ℚ
  stage_metrics : List StageMetrics
  velocity_metrics : VelocityMetrics
  forecasting : Forecast

/-- The aggregation `getPipelineAnalytics` performs once both fetches
succeeded: `stageData` is the open-pipeline fetch, `closedData` the
closed-only fetch (which selects `stage` alone).  All guards are the
source's `x > 0 ? _ / x : 0` ternaries; the aggregation is a total
function, so no input can make it raise. -/
def getPipelineAnalyticsData (now : ℤ) (stageData : List StageRow)
    (closedData : List Stage) : PipelineAnalytics :=
  let totalIntents := stageData.length
  let totalPipelineValue := stageData.foldl (fun sum i => sum + i.value) 0
  let totalClosed := closedData.length
  let totalWon := (closedData.filter fun s => s == Stage.closedWon).length
  { total_intents := totalIntents
    total_pipeline_value := totalPipelineValue
    weighted_pipeline_value :=
      stageData.foldl (fun sum i => sum + i.value * i.probability) 0
    avg_deal_size := if 0 < totalIntents then totalPipelineValue / totalIntents else 0
    overall_conversion_rate :=
      if 0 < totalClosed then (totalWon : ℚ) / (totalClosed : ℚ) else 0
    stage_metrics := calculateStageMetrics now stageData
    velocity_metrics := calculateVelocityMetrics
    forecasting := generateForecasting now stageData }

/-! ### Service-shell control flow (tenant-context bracketing)

Each service operation is a straight-line `try { … } catch { record
error metric; rethrow } finally { await clearOrgContext() }` block.  The
embedding records the ordered trace of observable steps each execution
takes, with the branch outcomes (validation success, `setOrgContext`
success, fetch results) as oracles, and pairs it with the value returned
or the error crossing the service boundary. -/

/-- Observable steps of a service operation. -/
inductive Ev
  | validate
  | setCtx
  | query
  | recordMetric
  | recordErrorMetric
  | clearCtx
  deriving DecidableEq, Repr

/-- One execution of a service operation: the ordered steps it ran and
either the response payload or the error that crosses the boundary. -/
structure Outcome (α : Type) where
  trace : List Ev
  result : Except String α

/-- The `catch` block shared by all five operations: record the
`<operation>.error` timing sample, then rethrow. -/
def catchRecord {α : Type} (o : Outcome α) : Outcome α :=
  match o.result with
  | Except.error e => { trace := o.trace ++ [Ev.recordErrorMetric], result := Except.error e }
  | Except.ok _ => o

/-- The `finally` block shared by all five operations:
`await clearOrgContext()` (whose own rpc failure is swallowed with a
`console.warn`) runs after the body or the catch block, on every path. -/
def finallyClear {α : Type} (o : Outcome α) : Outcome α :=
  { o with trace := o.trace ++ [Ev.clearCtx] }

/-- The `try` body of `getIntent`: validate, set tenant context, fetch a
single row, enrich with the rule engine, record the timing sample. -/
def getIntentBody (now : ℤ) (validationOk setCtxOk : Bool)
    (fetch : Except String (Option Intent)) :
    Outcome (Intent × List AIInsight × List Action) :=
  if validationOk = false then
    { trace := [Ev.validate], result := Except.error "validation failed" }
  else if setCtxOk = false then
    { trace := [Ev.validate, Ev.setCtx],
      result := Except.error "Failed to set org context" }
  else
    match fetch with
    | Except.error e =>
      { trace := [Ev.validate, Ev.setCtx, Ev.query],
        result := Except.error ("Database query failed: " ++ e) }
    | Except.ok none =>
      { trace := [Ev.validate, Ev.setCtx, Ev.query],
        result := Except.error "Intent not found" }
    | Except.ok (some row) =>
      { trace := [Ev.validate, Ev.setCtx, Ev.query, Ev.recordMetric],
        result := Except.ok
          (row, generateAIInsights now row, generateNextBestActions now row) }

/-- `getIntent` end to end. -/
def getIntent (now : ℤ) (validationOk setCtxOk : Bool)
    (fetch : Except String (Option Intent)) :
    Outcome (Intent × List AIInsight × List Action) :=
  finallyClear (catchRecord (getIntentBody now validationOk setCtxOk fetch))

/-- The `try` body shared by the two list operations: validate, set
tenant context, fetch (the query carries `.limit(limit + 1)`), run the
pagination epilogue, record the timing sample. -/
def listBody {α : Type} (idOf : α → String) (limit : ℕ)
    (validationOk setCtxOk : Bool) (fetch : Except String (List α)) :
    Outcome (PageResult α) :=
  if validationOk = false then
    { trace := [Ev.validate], result := Except.error "validation failed" }
  else if setCtxOk = false then
    { trace := [Ev.validate, Ev.setCtx],
      result := Except.error "Failed to set org context" }
  else
    match fetch with
    | Except.error e =>
      { trace := [Ev.validate, Ev.setCtx, Ev.query],
        result := Except.error ("Database query failed: " ++ e) }
    | Except.ok data =>
      { trace := [Ev.validate, Ev.setCtx, Ev.query, Ev.recordMetric],
        result := Except.ok (paginateFetched idOf limit data) }

/-- `listIntents` end to end. -/
def listIntents (limit : ℕ) (validationOk setCtxOk : Bool)
    (fetch : Except String (List IntentRow)) : Outcome (PageResult IntentRow) :=
  finallyClear (catchRecord (listBody IntentRow.id limit validationOk setCtxOk fetch))

/-- The `try` body of `getPipelineAnalytics`: set tenant context (no
parameters to validate), run the open-pipeline fetch and then the
closed-deals fetch, aggregate, record the timing sample. -/
def getPipelineAnalyticsBody (now : ℤ) (setCtxOk : Bool)
    (stageFetch : Except String (List StageRow))
    (closedFetch : Except String (List Stage)) : Outcome PipelineAnalytics :=
  if setCtxOk = false then
    { trace := [Ev.setCtx], result := Except.error "Failed to set org context" }
  else
    match stageFetch with
    | Except.error e =>
      { trace := [Ev.setCtx, Ev.query],
        result := Except.error ("Failed to get stage data: " ++ e) }
    | Except.ok stageData =>
      match closedFetch with
      | Except.error e =>
        { trace := [Ev.setCtx, Ev.query, Ev.query],
          result := Except.error ("Failed to get closed deals: " ++ e) }
      | Except.ok closedData =>
        { trace := [Ev.setCtx, Ev.query, Ev.query, Ev.recordMetric],
          result := Except.ok (getPipelineAnalyticsData now stageData closedData) }

/-- `getPipelineAnalytics` end to end. -/
def getPipelineAnalytics (now : ℤ) (setCtxOk : Bool)
    (stageFetch : Except String (List StageRow))
    (closedFetch : Except String (List Stage)) : Outcome PipelineAnalytics :=
  finallyClear (catchRecord (getPipelineAnalyticsBody now setCtxOk stageFetch closedFetch))

/-- The `try` body of `getRelationship`: validate, set tenant context,
fetch a single row, shape the response, record the timing sample. -/
def getRelationshipBody (validationOk setCtxOk : Bool)
    (fetch : Except String (Option RelationshipRow)) : Outcome RelationshipRow :=
  if validationOk = false then
    { trace := [Ev.validate], result := Except.error "validation failed" }
  else if setCtxOk = false then
    { trace := [Ev.validate, Ev.setCtx],
      result := Except.error "Failed to set org context" }
  else
    match fetch with
    | Except.error e =>
      { trace := [Ev.validate, Ev.setCtx, Ev.query],
        result := Except.error ("Database query failed: " ++ e) }
    | Except.ok none =>
      { trace := [Ev.validate, Ev.setCtx, Ev.query],
        result := Except.error "Relationship not found" }
    | Except.ok (some row) =>
      { trace := [Ev.validate, Ev.setCtx, Ev.query, Ev.recordMetric],
        result := Except.ok row }

/-- `getRelationship` end to end. -/
def getRelationship (validationOk setCtxOk : Bool)
    (fetch : Except String (Option RelationshipRow)) : Outcome RelationshipRow :=
  finallyClear (catchRecord (getRelationshipBody validationOk setCtxOk fetch))

/-- `listRelationships` end to end. -/
def listRelationships (limit : ℕ) (validationOk setCtxOk : Bool)
    (fetch : Except String (List RelationshipRow)) :
    Outcome (PageResult RelationshipRow) :=
  finallyClear (catchRecord (listBody RelationshipRow.id limit validationOk setCtxOk fetch))

/-! ### Rolling performance buffer (`PerformanceMonitor`, `telemetry.ts`) -/

/-- One entry of `PerformanceMonitor.measurements` (the free-form `tags`
map is elided). -/
structure Measurement where
  operation : String
  duration : ℚ
  timestamp : ℤ
  deriving DecidableEq, Repr

namespace PerformanceMonitor

/-- `PerformanceMonitor.record`: push the sample, then
`measurements = measurements.slice(-1000)` when the buffer exceeds 1000
entries. -/
def record (measurements : List Measurement) (m : Measurement) : List Measurement :=
  let pushed := measurements ++ [m]
  if 1000 < pushed.length then pushed.drop (pushed.length - 1000) else pushed

/-- The buffer contents after a sequence of `record` calls, oldest call
first, starting from the empty initial buffer. -/
def recordAll (ms : List Measurement) : List Measurement :=
  ms.foldl record []

end PerformanceMonitor

/-! ### Derived predicates and concrete inputs used by the claims -/

/-- `a` is the executive-meeting action as the value-based rule emits it
(title, priority 1, confidence 0.79). -/
def isExecutiveMeeting (a : Action) : Bool :=
  a.title == "Executive Meeting" && a.priority == 1 && a.confidence == (0.79 : ℚ)

/-- A horizon figure as §4.2's spec sentence describes it: the sum of
`value × probability` over exactly those input intents whose
expected-close date is set and falls within the horizon cutoff; intents
with no expected-close date contribute nothing. -/
def forecastSpec (cutoff : ℤ) (intents : List StageRow) : ℚ :=
  ((intents.filter fun i =>
      match i.expected_close_date with
      | some d => decide (d ≤ cutoff)
      | none => false).map fun i => i.value * i.probability).sum

/-- The §8 scenario input: stage = negotiation, value = 120000. -/
def c1Intent : Intent :=
  { value := 120000, probability := 0.5, stage := Stage.negotiation,
    expected_close_date := none, updated_at := 0 }

/-- A discovery-stage intent over the executive-meeting threshold whose
action list has two entries of distinct priority. -/
def c2Intent : Intent :=
  { value := 200000, probability := 0.2, stage := Stage.discovery,
    expected_close_date := none, updated_at := 0 }

/-- A discovery-stage intent over the executive-meeting threshold that
triggers no stage-keyed action. -/
def c3Intent : Intent :=
  { value := 200000, probability := 0.5, stage := Stage.discovery,
    expected_close_date := none, updated_at := 0 }

/-- A qualification-stage intent with probability 0.9. -/
def c4Intent : Intent :=
  { value := 1000, probability := 0.9, stage := Stage.qualification,
    expected_close_date := none, updated_at := 0 }

/-- Three intent rows with known ids, in query order. -/
def c5IntentRows : List IntentRow :=
  [{ c3Intent with id := "a" }, { c3Intent with id := "b" }, { c3Intent with id := "c" }]

/-- One relationship row. -/
def c5RelationshipRows : List RelationshipRow :=
  [{ id := "r", propensity_score := 0.5 }]

/-- A high-value intent whose expected-close date is one day before the
current time. -/
def c10Intent : Intent :=
  { value := 60000, probability := 0.5, stage := Stage.proposal,
    expected_close_date := some (-msPerDay), updated_at := 0 }

end CRM

/-! ## Theorems -/

namespace CRM

/-- The output of `generateNextBestActions` is sorted by the comparator's
preorder. -/
theorem sorted_generateNextBestActions (now : ℤ) (i : Intent) :
    List.Sorted actionLE (generateNextBestActions now i) :=
  List.sorted_insertionSort actionLE _

/-- For any negotiation-stage intent the action list is exactly the
negotiation-meeting action: the stage rule emits a meeting-type action, so
the executive-meeting rule's de-duplication check always fails. -/
theorem negotiation_actions (now : ℤ) (i : Intent)
    (hs : i.stage = Stage.negotiation) :
    generateNextBestActions now i = [negotiationMeeting] := by
  have h1 : stageActions now i = [negotiationMeeting] := by
    unfold stageActions; rw [hs]
  have h2 : execAppended now i = [negotiationMeeting] := by
    unfold execAppended
    rw [h1, if_neg]
    rintro ⟨-, hm⟩
    simp [hasMeeting, negotiationMeeting] at hm
  unfold generateNextBestActions
  rw [h2]
  simp [List.insertionSort, List.orderedInsert]

/-- Claim C1 as stated is false: on the intent with stage = negotiation and
value = 120000, the action list contains no "Executive Meeting" action
(priority 1, confidence 0.79) at all — the negotiation stage rule emits a
meeting-type action, so the value-based rule's de-duplication check
suppresses the executive meeting. -/
theorem C1_counterexample :
    ¬ ∃ a ∈ generateNextBestActions 0 c1Intent,
        a.title = "Executive Meeting" ∧ a.priority = 1 ∧ a.confidence = 0.79 := by
  rw [negotiation_actions 0 c1Intent rfl]
  rintro ⟨a, ha, ht, -, -⟩
  simp only [List.mem_singleton] at ha
  subst ha
  simp [negotiationMeeting] at ht

/-- Claim C1, amended: for an intent with stage = negotiation and
value = 120000, `generateNextBestActions` returns exactly the
"Negotiation Meeting" action (priority 1, confidence 0.82); no
"Executive Meeting" action is appended because a meeting-type action
already exists from the stage rule. -/
theorem C1_theorem (now : ℤ) (i : Intent)
    (hs : i.stage = Stage.negotiation) (_hv : i.value = 120000) :
    generateNextBestActions now i = [negotiationMeeting] ∧
    negotiationMeeting.title = "Negotiation Meeting" ∧
    negotiationMeeting.priority = 1 ∧ negotiationMeeting.confidence = 0.82 :=
  ⟨negotiation_actions now i hs, rfl, rfl, rfl⟩

/-- Claim C1 witness: the amended claim evaluated on the scenario intent
itself. -/
theorem C1_witness :
    c1Intent.stage = Stage.negotiation ∧ c1Intent.value = 120000 ∧
    (generateNextBestActions 0 c1Intent = [negotiationMeeting] ∧
     negotiationMeeting.title = "Negotiation Meeting" ∧
     negotiationMeeting.priority = 1 ∧ negotiationMeeting.confidence = 0.82) :=
  ⟨rfl, rfl, C1_theorem 0 c1Intent rfl rfl⟩

/-- Claim C2: for every intent, the action list returned by
`generateNextBestActions` is sorted ascending by priority, and among
actions of equal priority, descending by confidence: for any indices
`j < k` of the result, `priority[j] ≤ priority[k]`, and when they are
equal, `confidence[j] ≥ confidence[k]`. -/
theorem C2_theorem (now : ℤ) (i : Intent) (j k : ℕ) (hjk : j < k)
    (a b : Action)
    (ha : (generateNextBestActions now i)[j]? = some a)
    (hb : (generateNextBestActions now i)[k]? = some b) :
    a.priority ≤ b.priority ∧
    (a.priority = b.priority → b.confidence ≤ a.confidence) := by
  obtain ⟨hj, rfl⟩ := List.getElem?_eq_some.mp ha
  obtain ⟨hk, rfl⟩ := List.getElem?_eq_some.mp hb
  have hrel := (sorted_generateNextBestActions now i).rel_get_of_lt
    (a := (⟨j, hj⟩ : Fin _)) (b := (⟨k, hk⟩ : Fin _)) (Fin.mk_lt_mk.mpr hjk)
  simp only [List.get_eq_getElem] at hrel
  rcases hrel with h | ⟨he, hc⟩
  · exact ⟨Nat.le_of_lt h, fun heq => absurd heq (Nat.ne_of_lt h)⟩
  · exact ⟨Nat.le_of_eq he, fun _ => hc⟩

/-- The action list of `c2Intent` has two entries: the executive meeting
(priority 1) sorts before the discovery call (priority 2). -/
theorem c2_eval :
    generateNextBestActions 0 c2Intent = [executiveMeeting, discoveryCall] := by
  simp [generateNextBestActions, execAppended, stageActions, c2Intent, hasMeeting,
    List.insertionSort, List.orderedInsert, discoveryCall, executiveMeeting]
  norm_num [actionLE]

/-- Claim C2 witness: the ordering contract evaluated on a two-element
action list. -/
theorem C2_witness :
    (0 < 1) ∧
    (generateNextBestActions 0 c2Intent)[0]? = some executiveMeeting ∧
    (generateNextBestActions 0 c2Intent)[1]? = some discoveryCall ∧
    (executiveMeeting.priority ≤ discoveryCall.priority ∧
     (executiveMeeting.priority = discoveryCall.priority →
       discoveryCall.confidence ≤ executiveMeeting.confidence)) := by
  have h0 : (generateNextBestActions 0 c2Intent)[0]? = some executiveMeeting := by
    rw [c2_eval]; simp
  have h1 : (generateNextBestActions 0 c2Intent)[1]? = some discoveryCall := by
    rw [c2_eval]; simp
  exact ⟨Nat.zero_lt_one, h0, h1,
    C2_theorem 0 c2Intent 0 1 Nat.zero_lt_one _ _ h0 h1⟩

/-- No stage-keyed rule ever produces the executive-meeting action. -/
theorem stageActions_no_exec (now : ℤ) (i : Intent) :
    (stageActions now i).countP isExecutiveMeeting = 0 := by
  rw [List.countP_eq_zero]
  intro a ha
  have hmem : a = discoveryCall ∨ a = sendProposal now ∨ a = proposalFollowUp ∨
      a = negotiationMeeting := by
    unfold stageActions at ha
    cases hstage : i.stage <;> rw [hstage] at ha <;> (try split_ifs at ha) <;>
      simp at ha <;> tauto
  rcases hmem with rfl | rfl | rfl | rfl <;>
    simp [isExecutiveMeeting, discoveryCall, sendProposal, proposalFollowUp,
      negotiationMeeting]

/-- Claim C3: for every intent with value > 100000, the action list
contains exactly one "Executive Meeting" action (priority 1, confidence
0.79) iff the stage-keyed rules produced no meeting-type action; when a
meeting-type action exists, no executive-meeting action is appended. -/
theorem C3_theorem (now : ℤ) (i : Intent) (hv : i.value > 100000) :
    ((generateNextBestActions now i).countP isExecutiveMeeting = 1 ↔
      hasMeeting (stageActions now i) = false) ∧
    (hasMeeting (stageActions now i) = true →
      (generateNextBestActions now i).countP isExecutiveMeeting = 0) := by
  have hperm : (generateNextBestActions now i).countP isExecutiveMeeting =
      (execAppended now i).countP isExecutiveMeeting :=
    (List.perm_insertionSort actionLE (execAppended now i)).countP_eq isExecutiveMeeting
  have hstage := stageActions_no_exec now i
  cases hm : hasMeeting (stageActions now i)
  · have he : execAppended now i = stageActions now i ++ [executiveMeeting] := by
      unfold execAppended; rw [if_pos ⟨hv, hm⟩]
    have hcount : (generateNextBestActions now i).countP isExecutiveMeeting = 1 := by
      rw [hperm, he, List.countP_append, hstage]
      simp [isExecutiveMeeting, executiveMeeting]
    exact ⟨⟨fun _ => rfl, fun _ => hcount⟩, fun ht => absurd ht (by simp)⟩
  · have he : execAppended now i = stageActions now i := by
      unfold execAppended
      rw [if_neg]
      rintro ⟨-, hmf⟩
      rw [hm] at hmf
      simp at hmf
    have hcount : (generateNextBestActions now i).countP isExecutiveMeeting = 0 := by
      rw [hperm, he, hstage]
    exact ⟨⟨fun h1 => absurd (hcount.symm.trans h1) (by norm_num),
      fun hf => absurd hf (by simp)⟩, fun _ => hcount⟩

/-- Claim C3 witness: evaluated on a high-value intent with no stage
action. -/
theorem C3_witness :
    c3Intent.value > 100000 ∧
    (((generateNextBestActions 0 c3Intent).countP isExecutiveMeeting = 1 ↔
       hasMeeting (stageActions 0 c3Intent) = false) ∧
     (hasMeeting (stageActions 0 c3Intent) = true →
       (generateNextBestActions 0 c3Intent).countP isExecutiveMeeting = 0)) :=
  ⟨by norm_num [c3Intent], C3_theorem 0 c3Intent (by norm_num [c3Intent])⟩

/-- Every insight produced by rule 2 carries the closing-soon title. -/
theorem mem_insightRule2_title (now : ℤ) (i : Intent) (ins : AIInsight)
    (h : ins ∈ insightRule2 now i) : ins.title = "High-Value Deal Closing Soon" := by
  cases hcd : i.expected_close_date
  · simp [insightRule2, hcd] at h
  · simp only [insightRule2, hcd] at h
    split_ifs at h with h1 h2 <;> simp at h
    subst h
    rfl

/-- Every insight produced by rule 3 carries the extended-duration title. -/
theorem mem_insightRule3_title (now : ℤ) (i : Intent) (ins : AIInsight)
    (h : ins ∈ insightRule3 now i) : ins.title = "Extended Stage Duration" := by
  simp only [insightRule3] at h
  split_ifs at h with h1 <;> simp at h
  subst h
  rfl

/-- Claim C4: for every intent in the qualification stage with probability
in [0, 1], `generateAIInsights` emits the "high conversion probability"
behavioral insight (confidence 0.92, impact high) iff probability > 0.8. -/
theorem C4_theorem (now : ℤ) (i : Intent)
    (_h0 : 0 ≤ i.probability) (_h1 : i.probability ≤ 1)
    (hs : i.stage = Stage.qualification) :
    ((∃ ins ∈ generateAIInsights now i,
        ins.title = "High Conversion Probability Detected" ∧
        ins.confidence = 0.92 ∧ ins.impact = Impact.high) ↔
      i.probability > 0.8) := by
  constructor
  · rintro ⟨ins, hmem, htitle, -, -⟩
    unfold generateAIInsights at hmem
    rcases List.mem_append.mp hmem with hmem' | hmem3
    · rcases List.mem_append.mp hmem' with hmem1 | hmem2
      · unfold insightRule1 at hmem1
        by_cases hc : i.probability > 0.8 ∧ i.stage = Stage.qualification
        · exact hc.1
        · rw [if_neg hc] at hmem1; simp at hmem1
      · have := mem_insightRule2_title now i ins hmem2
        rw [htitle] at this
        simp at this
    · have := mem_insightRule3_title now i ins hmem3
      rw [htitle] at this
      simp at this
  · intro hp
    refine ⟨highConversionInsight, ?_, rfl, rfl, rfl⟩
    unfold generateAIInsights insightRule1
    rw [if_pos ⟨hp, hs⟩]
    simp

/-- Claim C4 witness: a qualification-stage intent with probability 0.9. -/
theorem C4_witness :
    (0 ≤ c4Intent.probability ∧ c4Intent.probability ≤ 1 ∧
      c4Intent.stage = Stage.qualification) ∧
    ((∃ ins ∈ generateAIInsights 0 c4Intent,
        ins.title = "High Conversion Probability Detected" ∧
        ins.confidence = 0.92 ∧ ins.impact = Impact.high) ↔
      c4Intent.probability > 0.8) :=
  ⟨⟨by norm_num [c4Intent], by norm_num [c4Intent], rfl⟩,
    C4_theorem 0 c4Intent (by norm_num [c4Intent]) (by norm_num [c4Intent]) rfl⟩

/-- The two-case pagination contract any list operation satisfies. -/
theorem listQuery_spec {α : Type} (idOf : α → String) (limit : ℕ)
    (matching : List α) :
    (limit < matching.length →
      (listQuery idOf limit matching).items.length = limit ∧
      (listQuery idOf limit matching).has_more = true ∧
      (listQuery idOf limit matching).cursor =
        ((listQuery idOf limit matching).items[limit - 1]?).map idOf) ∧
    (matching.length ≤ limit →
      (listQuery idOf limit matching).items = matching ∧
      (listQuery idOf limit matching).has_more = false ∧
      (listQuery idOf limit matching).cursor = none) := by
  have hitems : (listQuery idOf limit matching).items = matching.take limit := by
    simp [listQuery, paginateFetched, List.take_take]
  constructor
  · intro h
    have hmore : (listQuery idOf limit matching).has_more = true := by
      simp [listQuery, paginateFetched, List.length_take]
      omega
    have hlen : (listQuery idOf limit matching).items.length = limit := by
      rw [hitems, List.length_take]; omega
    refine ⟨hlen, hmore, ?_⟩
    have hcursor : (listQuery idOf limit matching).cursor =
        ((matching.take limit).getLast?).map idOf := by
      simp only [listQuery, paginateFetched, List.take_take]
      rw [if_pos]
      · simp [List.take_take]
      · simp [List.length_take]; omega
    rw [hcursor, hitems]
    congr 1
    rw [List.getLast?_eq_getElem?, List.length_take]
    congr 1
    omega
  · intro h
    have hdata : matching.take (limit + 1) = matching :=
      List.take_of_length_le (by omega)
    have hmore : (listQuery idOf limit matching).has_more = false := by
      simp [listQuery, paginateFetched, hdata]
      omega
    refine ⟨?_, hmore, ?_⟩
    · rw [hitems]; exact List.take_of_length_le h
    · simp only [listQuery, paginateFetched]
      rw [if_neg]
      rw [hdata]
      simp
      omega

/-- Claim C5: for both list operations with a validated limit N: when the
rows matching the filters number more than N, the response has exactly N
items, `has_more = true`, and the next cursor is the Nth returned item's
id; otherwise all rows are returned with `has_more = false` and a null
cursor. -/
theorem C5_theorem (limit : ℕ) (_hl : 1 ≤ limit)
    (irows : List IntentRow) (rrows : List RelationshipRow) :
    ((limit < irows.length →
        (listIntentsPage limit irows).items.length = limit ∧
        (listIntentsPage limit irows).has_more = true ∧
        (listIntentsPage limit irows).cursor =
          ((listIntentsPage limit irows).items[limit - 1]?).map IntentRow.id) ∧
     (irows.length ≤ limit →
        (listIntentsPage limit irows).items = irows ∧
        (listIntentsPage limit irows).has_more = false ∧
        (listIntentsPage limit irows).cursor = none)) ∧
    ((limit < rrows.length →
        (listRelationshipsPage limit rrows).items.length = limit ∧
        (listRelationshipsPage limit rrows).has_more = true ∧
        (listRelationshipsPage limit rrows).cursor =
          ((listRelationshipsPage limit rrows).items[limit - 1]?).map RelationshipRow.id) ∧
     (rrows.length ≤ limit →
        (listRelationshipsPage limit rrows).items = rrows ∧
        (listRelationshipsPage limit rrows).has_more = false ∧
        (listRelationshipsPage limit rrows).cursor = none)) :=
  ⟨listQuery_spec IntentRow.id limit irows,
   listQuery_spec RelationshipRow.id limit rrows⟩

/-- Claim C5 witness: limit 2 over three intent rows (a page plus cursor)
and over one relationship row (no further page). -/
theorem C5_witness :
    (1 ≤ 2) ∧
    (listIntentsPage 2 c5IntentRows).items.length = 2 ∧
    (listIntentsPage 2 c5IntentRows).has_more = true ∧
    (listIntentsPage 2 c5IntentRows).cursor =
      ((listIntentsPage 2 c5IntentRows).items[1]?).map IntentRow.id ∧
    (listRelationshipsPage 2 c5RelationshipRows).items = c5RelationshipRows ∧
    (listRelationshipsPage 2 c5RelationshipRows).has_more = false ∧
    (listRelationshipsPage 2 c5RelationshipRows).cursor = none := by
  have h := C5_theorem 2 (by norm_num) c5IntentRows c5RelationshipRows
  obtain ⟨hi, hmi, hci⟩ := h.1.1 (by simp [c5IntentRows])
  obtain ⟨hr, hmr, hcr⟩ := h.2.2 (by simp [c5RelationshipRows])
  exact ⟨by norm_num, hi, hmi, hci, hr, hmr, hcr⟩

/-- Claim C6: on an empty open-pipeline fetch and an empty closed-deals
fetch, `avg_deal_size`, `overall_conversion_rate` and every per-stage
average are 0; the aggregation is a total function, so it raises nothing. -/
theorem C6_theorem (now : ℤ) :
    (getPipelineAnalyticsData now [] []).avg_deal_size = 0 ∧
    (getPipelineAnalyticsData now [] []).overall_conversion_rate = 0 ∧
    ((getPipelineAnalyticsData now [] []).stage_metrics.map
        fun m => (m.avg_value, m.avg_probability, m.avg_days_in_stage)) =
      [(0, 0, 0), (0, 0, 0), (0, 0, 0), (0, 0, 0), (0, 0, 0)] := by
  refine ⟨rfl, rfl, ?_⟩
  simp [getPipelineAnalyticsData, calculateStageMetrics]

/-- After the `finally` block, the last step of the trace is the
tenant-context clear. -/
theorem trace_finallyClear_getLast {α : Type} (o : Outcome α) :
    ((finallyClear o).trace).getLast? = some Ev.clearCtx := by
  simp [finallyClear, List.getLast?_concat]

/-- Claim C7: for each of the five service operations and every exit path
— validation failure, tenant-context set failure, fetch failure,
not-found, or normal return — the tenant-context clear step runs last,
before the result is returned or the error crosses the service boundary. -/
theorem C7_theorem :
    (∀ (now : ℤ) (v s : Bool) (f : Except String (Option Intent)),
      (getIntent now v s f).trace.getLast? = some Ev.clearCtx) ∧
    (∀ (limit : ℕ) (v s : Bool) (f : Except String (List IntentRow)),
      (listIntents limit v s f).trace.getLast? = some Ev.clearCtx) ∧
    (∀ (now : ℤ) (s : Bool) (f₁ : Except String (List StageRow))
        (f₂ : Except String (List Stage)),
      (getPipelineAnalytics now s f₁ f₂).trace.getLast? = some Ev.clearCtx) ∧
    (∀ (v s : Bool) (f : Except String (Option RelationshipRow)),
      (getRelationship v s f).trace.getLast? = some Ev.clearCtx) ∧
    (∀ (limit : ℕ) (v s : Bool) (f : Except String (List RelationshipRow)),
      (listRelationships limit v s f).trace.getLast? = some Ev.clearCtx) :=
  ⟨fun _ _ _ _ => trace_finallyClear_getLast _,
   fun _ _ _ _ => trace_finallyClear_getLast _,
   fun _ _ _ _ => trace_finallyClear_getLast _,
   fun _ _ _ => trace_finallyClear_getLast _,
   fun _ _ _ _ => trace_finallyClear_getLast _⟩

/-- `reduce((sum, x) => sum + f(x), c)` is `c` plus the sum of the mapped
list. -/
theorem foldl_add_map_sum {α : Type} (f : α → ℚ) (c : ℚ) (l : List α) :
    l.foldl (fun sum x => sum + f x) c = c + (l.map f).sum := by
  induction l generalizing c with
  | nil => simp
  | cons x xs ih => rw [List.foldl_cons, ih, List.map_cons, List.sum_cons]; ring

/-- The source's horizon figure coincides with the spec's description of
it. -/
theorem forecastSum_eq_spec (cutoff : ℤ) (intents : List StageRow) :
    forecastSum cutoff intents = forecastSpec cutoff intents := by
  unfold forecastSum forecastSpec
  rw [foldl_add_map_sum, zero_add]
  congr 1
  congr 1
  apply List.filter_congr
  intro i _
  cases hd : i.expected_close_date <;> simp [hd]

/-- Claim C8: for each horizon h ∈ {30, 60, 90} days, the forecast equals
the sum of value × probability over exactly those input intents whose
expected-close date is set and at most `now + h` days out (none-valued
close dates contribute nothing), and the fixed confidence constant 0.82
accompanies the three figures. -/
theorem C8_theorem (now : ℤ) (intents : List StageRow) :
    (generateForecasting now intents).next_30_days =
      forecastSpec (now + 30 * msPerDay) intents ∧
    (generateForecasting now intents).next_60_days =
      forecastSpec (now + 60 * msPerDay) intents ∧
    (generateForecasting now intents).next_90_days =
      forecastSpec (now + 90 * msPerDay) intents ∧
    (generateForecasting now intents).confidence = 0.82 :=
  ⟨forecastSum_eq_spec _ _, forecastSum_eq_spec _ _, forecastSum_eq_spec _ _, rfl⟩

/-- Unfolding one `record` call at the end of a history. -/
theorem recordAll_step (xs : List Measurement) (m : Measurement) :
    PerformanceMonitor.recordAll (xs ++ [m]) =
      PerformanceMonitor.record (PerformanceMonitor.recordAll xs) m := by
  unfold PerformanceMonitor.recordAll
  rw [List.foldl_append]
  rfl

/-- After any record history, the buffer holds exactly the suffix of the
history past its first `length - 1000` entries. -/
theorem recordAll_eq_drop (ms : List Measurement) :
    PerformanceMonitor.recordAll ms = ms.drop (ms.length - 1000) := by
  induction ms using List.reverseRecOn with
  | nil => rfl
  | append_singleton xs m ih =>
    rw [recordAll_step, ih]
    simp only [PerformanceMonitor.record]
    by_cases hn : xs.length < 1000
    · have h0 : xs.length - 1000 = 0 := by omega
      rw [h0, List.drop_zero]
      rw [if_neg (by simp only [List.length_append, List.length_singleton]; omega)]
      rw [Nat.sub_eq_zero_of_le (by simp only [List.length_append, List.length_singleton]; omega),
        List.drop_zero]
    · have hb : (xs.drop (xs.length - 1000)).length = 1000 := by
        rw [List.length_drop]; omega
      have hlen : ((xs.drop (xs.length - 1000)) ++ [m]).length = 1001 := by
        simp [hb]
      rw [if_pos (by rw [hlen]; omega), hlen]
      have h2 : (1001 : ℕ) - 1000 = 1 := by norm_num
      rw [h2, List.drop_append_of_le_length (by rw [hb]; omega), List.drop_drop]
      have h1 : (xs ++ [m]).length - 1000 = (xs.length - 1000) + 1 := by
        simp only [List.length_append, List.length_singleton]; omega
      rw [h1, List.drop_append_of_le_length (by omega)]

/-- Claim C9: after every sequence of `PerformanceMonitor.record` calls the
buffer holds min(total recorded, 1000) entries, and they are exactly the
most recently recorded samples in insertion order (the history's suffix). -/
theorem C9_theorem (ms : List Measurement) :
    (PerformanceMonitor.recordAll ms).length = min ms.length 1000 ∧
    PerformanceMonitor.recordAll ms = ms.drop (ms.length - 1000) := by
  refine ⟨?_, recordAll_eq_drop ms⟩
  rw [recordAll_eq_drop, List.length_drop]
  omega

/-- Claim C10: for every intent with value > 50000 whose expected-close
date is at or before the current time, `generateAIInsights` still emits
the "High-Value Deal Closing Soon" predictive insight, carrying a zero or
negative days-to-close — the rule bounds days-to-close only from above. -/
theorem C10_theorem (now : ℤ) (i : Intent) (d : ℤ)
    (hv : i.value > 50000) (hd : i.expected_close_date = some d)
    (hpast : d ≤ now) :
    ∃ ins ∈ generateAIInsights now i,
      ins.title = "High-Value Deal Closing Soon" ∧
      ins.type = InsightType.predictive ∧
      ∃ k : ℤ, ins.days_to_close = some k ∧ k ≤ 0 := by
  have hdays : (⌈((d - now : ℤ) : ℚ) / (msPerDay : ℚ)⌉ : ℤ) ≤ 0 := by
    rw [Int.ceil_le]
    push_cast
    apply div_nonpos_of_nonpos_of_nonneg
    · simpa using sub_nonpos.mpr (show (d : ℚ) ≤ (now : ℚ) by exact_mod_cast hpast)
    · norm_num [msPerDay]
  have h2 : insightRule2 now i =
      [highValueClosingSoonInsight ⌈((d - now : ℤ) : ℚ) / (msPerDay : ℚ)⌉] := by
    simp only [insightRule2, hd]
    rw [if_pos hv, if_pos (lt_of_le_of_lt hdays (by norm_num))]
  refine ⟨highValueClosingSoonInsight ⌈((d - now : ℤ) : ℚ) / (msPerDay : ℚ)⌉, ?_, rfl, rfl,
    ⟨_, rfl, hdays⟩⟩
  unfold generateAIInsights
  rw [List.mem_append, List.mem_append]
  left; right
  rw [h2]
  simp

/-- Claim C10 witness: a 60000-value intent whose close date is one day in
the past. -/
theorem C10_witness :
    (c10Intent.value > 50000 ∧ c10Intent.expected_close_date = some (-msPerDay) ∧
      (-msPerDay : ℤ) ≤ 0) ∧
    (∃ ins ∈ generateAIInsights 0 c10Intent,
      ins.title = "High-Value Deal Closing Soon" ∧
      ins.type = InsightType.predictive ∧
      ∃ k : ℤ, ins.days_to_close = some k ∧ k ≤ 0) :=
  ⟨⟨by norm_num [c10Intent], rfl, by norm_num [msPerDay]⟩,
    C10_theorem 0 c10Intent (-msPerDay) (by norm_num [c10Intent])
      rfl (by norm_num [msPerDay])⟩

end CRM
